import Mathlib

/-!
Shallow embedding of the ExpenseIt-API authentication subsystem.

The definitions below are translated from the repository's TypeScript source:
* `src/services/authService.ts` (register / login / refresh / logout / IssueTokens),
* `src/utils/timeUtils.js` (parseExpiryToMs),
* `src/middleware/auth.middleware.ts` (authenticationHandler),
* `src/controllers/transactionController.ts` (the `req.user?.sub` read),
* `prisma/migrations/…` (the RefreshToken table: TEXT primary key `id`,
  the unique index `RefreshToken_userId_key` on `userId`, nullable `revokedAt`).

Modelling conventions:
* Time is in milliseconds since the Unix epoch (`Date.now()`); a single call
  of a service function observes one instant `env.now` (all `Date.now()` /
  `new Date()` occurrences inside one call happen within the same tick).
* `crypto.randomUUID()` is modelled as an explicit fresh-identifier input
  `env.newRid` supplied to the call.
* bcrypt is an external primitive; it is modelled as an injective tagged
  one-way function with the verify capability the service uses.
* A JSON Web Token is modelled as either a malformed blob or a signed pair
  of claims and the secret it was signed with; `jwt.verify` succeeds exactly
  when the secret matches and the `exp` claim (a NumericDate in seconds) has
  not elapsed at the clock timestamp `now / 1000`.
* The relational store is a list of rows; `prisma.refreshToken.create`
  fails (throws, modelled as `none`) when the primary key or the unique
  index `RefreshToken_userId_key` would be violated; `update` fails when
  the row is absent; `$transaction` is all-or-nothing.
-/

namespace ExpenseIt

/-- Milliseconds since the Unix epoch, i.e. the value of `Date.now()`. -/
abbrev Millis := Nat

instance exceptDecEq {ε α : Type} [DecidableEq ε] [DecidableEq α] :
    DecidableEq (Except ε α) := fun a b =>
  match a, b with
  | .ok x, .ok y =>
      if h : x = y then .isTrue (congrArg Except.ok h)
      else .isFalse (fun hc => h (Except.ok.inj hc))
  | .error x, .error y =>
      if h : x = y then .isTrue (congrArg Except.error h)
      else .isFalse (fun hc => h (Except.error.inj hc))
  | .ok _, .error _ => .isFalse (fun hc => Except.noConfusion hc)
  | .error _, .ok _ => .isFalse (fun hc => Except.noConfusion hc)

/-- bcrypt.hash modelled as an injective tagged one-way function
(`saltRounds = 10` in the service). -/
def bcryptHash (password : String) : String :=
  "bcrypt-2b-10-" ++ password

/-- bcrypt.compare: the stored hash verifies exactly the hashed password. -/
def bcryptCompare (password hash : String) : Bool :=
  hash == bcryptHash password

/-- process.env.JWT_ACCESS_SECRET (configuration; an arbitrary fixed value). -/
def jwtAccessSecret : String := "jwt-access-secret"

/-- process.env.JWT_REFRESH_SECRET (distinct from the access secret). -/
def jwtRefreshSecret : String := "jwt-refresh-secret"

/-- Decimal digits to a number, the value `parseInt(exp, 10)` yields on a
string of digits. -/
def digitsToNat (cs : List Char) : Nat :=
  cs.foldl (fun a c => a * 10 + (c.toNat - 48)) 0

/-- src/utils/timeUtils.js `parseExpiryToMs`: a string of digits followed by
`d` is days, digits followed by `h` is hours, anything else (including the
minutes form "15m") falls to the 7-day default. -/
def parseExpiryToMs (exp : String) : Nat :=
  let cs := exp.data
  match cs.getLast? with
  | some 'd' =>
      let ds := cs.dropLast
      if ds ≠ [] ∧ ds.all Char.isDigit then digitsToNat ds * 24 * 60 * 60 * 1000
      else 7 * 24 * 60 * 60 * 1000
  | some 'h' =>
      let hs := cs.dropLast
      if hs ≠ [] ∧ hs.all Char.isDigit then digitsToNat hs * 60 * 60 * 1000
      else 7 * 24 * 60 * 60 * 1000
  | _ => 7 * 24 * 60 * 60 * 1000

/-- `parseExpiryToMs(process.env.X)` where the variable may be unset: in JS
the regexes reject the coerced string "undefined", so the default applies. -/
def parseExpiryToMsOpt (exp : Option String) : Nat :=
  match exp with
  | some s => parseExpiryToMs s
  | none => 7 * 24 * 60 * 60 * 1000

/-- JS `process.env.X || d`: unset and the empty string are falsy. -/
def envOr (v : Option String) (d : String) : String :=
  match v with
  | some s => if s == "" then d else s
  | none => d

/-- Claims of an access token: `{ sub: String(userId), iat, exp }`
(`iat` is added by `jwt.sign`; `exp` is a NumericDate in seconds). -/
structure AccessClaims where
  sub : String
  iat : Nat
  exp : Nat
  deriving DecidableEq, Repr

/-- Claims of a refresh token: `{ sub: userId, rid, iat, exp }`; the service
signs `sub` as the numeric user id. -/
structure RefreshClaims where
  sub : Nat
  rid : String
  iat : Nat
  exp : Nat
  deriving DecidableEq, Repr

/-- A raw compact token string: either not a well-formed signed token at
all, or the signed bundle of claims together with the secret that minted
it (the signature is modelled as knowledge of that secret). -/
inductive SignedToken (C : Type) where
  | malformed
  | signed (claims : C) (secret : String)
  deriving DecidableEq, Repr

/-- The failure modes `jwt.verify` throws. -/
inductive JwtError where
  | invalidToken
  | tokenExpired
  deriving DecidableEq, Repr

/-- The `String(err)` rendering of a thrown jsonwebtoken error. -/
def jwtErrorString : JwtError → String
  | .invalidToken => "JsonWebTokenError: invalid token"
  | .tokenExpired => "TokenExpiredError: jwt expired"

/-- `jwt.verify(raw, secret)` on a refresh token at clock time `now` (ms):
rejects a malformed blob or a wrong secret; rejects an elapsed `exp` claim
(expired when `exp <= floor(now/1000)`). -/
def verifyRefreshToken (raw : SignedToken RefreshClaims) (secret : String)
    (now : Millis) : Except JwtError RefreshClaims :=
  match raw with
  | .malformed => .error .invalidToken
  | .signed c s =>
      if s != secret then .error .invalidToken
      else if c.exp ≤ now / 1000 then .error .tokenExpired
      else .ok c

/-- `jwt.verify(token, secret)` on an access token at clock time `now`. -/
def verifyAccessToken (raw : SignedToken AccessClaims) (secret : String)
    (now : Millis) : Except JwtError AccessClaims :=
  match raw with
  | .malformed => .error .invalidToken
  | .signed c s =>
      if s != secret then .error .invalidToken
      else if c.exp ≤ now / 1000 then .error .tokenExpired
      else .ok c

/-- The Account row: 1:1 with User, holds the bcrypt password hash. -/
structure Account where
  password : String
  deriving DecidableEq, Repr

/-- The User row with its included Account relation. -/
structure UserRow where
  id : Nat
  firstName : String
  lastName : Option String
  email : String
  account : Option Account
  deriving DecidableEq, Repr

/-- The RefreshToken row of the final migration: TEXT primary key `id`,
`userId` INTEGER with the unique index `RefreshToken_userId_key`,
`expiresAt`/`createdAt` DATETIME, nullable `revokedAt`, nullable audit
metadata. -/
structure RefreshTokenRow where
  id : String
  userId : Nat
  expiresAt : Millis
  createdAt : Millis
  revokedAt : Option Millis
  ip : Option String
  userAgent : Option String
  deriving DecidableEq, Repr

/-- The relational store. `nextUserId` models the INTEGER autoincrement
key of the User table. -/
structure DB where
  users : List UserRow
  tokens : List RefreshTokenRow
  nextUserId : Nat
  deriving DecidableEq, Repr

/-- `prisma.user.findUnique({ where: { email } })`. -/
def findUserByEmail (db : DB) (email : String) : Option UserRow :=
  db.users.find? (fun u => u.email == email)

/-- `prisma.refreshToken.findUnique({ where: { id: rid } })`. -/
def findTokenById (db : DB) (rid : String) : Option RefreshTokenRow :=
  db.tokens.find? (fun r => r.id == rid)

/-- `prisma.user.create` with the nested Account create; fails on a
duplicate email (the unique field `findUnique` relies on). -/
def userCreate (db : DB) (firstName : String) (lastName : Option String)
    (email hashedPassword : String) : Option (UserRow × DB) :=
  if db.users.any (fun u => u.email == email) then none
  else
    let u : UserRow :=
      { id := db.nextUserId, firstName := firstName, lastName := lastName,
        email := email, account := some { password := hashedPassword } }
    some (u, { db with users := db.users ++ [u], nextUserId := db.nextUserId + 1 })

/-- `prisma.refreshToken.create`: throws (none) when the TEXT primary key
or the unique index `RefreshToken_userId_key` on `userId` would be
violated. -/
def refreshTokenCreate (db : DB) (row : RefreshTokenRow) : Option DB :=
  if db.tokens.any (fun r => r.id == row.id) ||
     db.tokens.any (fun r => r.userId == row.userId) then none
  else some { db with tokens := db.tokens ++ [row] }

/-- The per-row effect of `prisma.refreshToken.update({ where: { id: rid },
data: { revokedAt: new Date() } })`: stamp the matching row. -/
def revokeMap (rid : String) (t : Millis) (r : RefreshTokenRow) :
    RefreshTokenRow :=
  if r.id == rid then { r with revokedAt := some t } else r

/-- `prisma.refreshToken.update({ where: { id: rid }, data: { revokedAt:
new Date() } })`: throws (none) when no row has that id. -/
def refreshTokenUpdateRevokedAt (db : DB) (rid : String) (now : Millis) :
    Option DB :=
  if db.tokens.any (fun r => r.id == rid) then
    some { db with tokens := db.tokens.map (revokeMap rid now) }
  else none

/-- The ambient effects and configuration one service call observes:
`Date.now()`, the `crypto.randomUUID()` draw, and the two expiry
environment variables. -/
structure Env where
  now : Millis
  newRid : String
  accessTokenExp : Option String
  refreshTokenExp : Option String
  deriving DecidableEq, Repr

/-- The triple `IssueTokens` returns. -/
structure IssuedTokens where
  token : SignedToken AccessClaims
  refreshToken : SignedToken RefreshClaims
  refreshId : String
  deriving DecidableEq, Repr

/-- authService.ts `IssueTokens`: the access token is signed with a payload
whose `exp` field is `parseExpiryToMs(ACCESS_TOKEN_EXP || "15m") / 1000`
(jsonwebtoken treats an explicit payload `exp` as an absolute NumericDate);
the refresh token embeds the fresh `rid` and an `exp` of
`parseExpiryToMs(REFRESH_TOKEN_EXP || "7d") / 1000`. -/
def IssueTokens (env : Env) (userId : Nat) : IssuedTokens :=
  let token : SignedToken AccessClaims :=
    .signed
      { sub := toString userId, iat := env.now / 1000,
        exp := parseExpiryToMs (envOr env.accessTokenExp "15m") / 1000 }
      jwtAccessSecret
  let refreshId := env.newRid
  let refreshToken : SignedToken RefreshClaims :=
    .signed
      { sub := userId, rid := refreshId, iat := env.now / 1000,
        exp := parseExpiryToMs (envOr env.refreshTokenExp "7d") / 1000 }
      jwtRefreshSecret
  { token := token, refreshToken := refreshToken, refreshId := refreshId }

/-- The sanitized user projection `{ id, firstName, lastName, email }`. -/
structure SanitizedUser where
  id : Nat
  firstName : String
  lastName : Option String
  email : String
  deriving DecidableEq, Repr

/-- Result of `register`. -/
inductive RegisterResult where
  | ok (data : SanitizedUser)
  | err (code : Nat) (message : String) (internal : Option String)
  deriving DecidableEq, Repr

/-- HTTP status the controller sends for a register result (201 on ok). -/
def RegisterResult.code : RegisterResult → Nat
  | .ok _ => 201
  | .err c _ _ => c

/-- Success payload of `login`. -/
structure LoginData where
  user : SanitizedUser
  accessToken : SignedToken AccessClaims
  refreshToken : SignedToken RefreshClaims
  deriving DecidableEq, Repr

/-- Result of `login`. -/
inductive LoginResult where
  | ok (data : LoginData)
  | err (code : Nat) (message : String) (internal : Option String)
  deriving DecidableEq, Repr

/-- HTTP status the controller sends for a login result (200 on ok). -/
def LoginResult.code : LoginResult → Nat
  | .ok _ => 200
  | .err c _ _ => c

/-- The message field of a failed login (none on success). -/
def LoginResult.errMessage : LoginResult → Option String
  | .ok _ => none
  | .err _ m _ => some m

/-- Success payload of `refresh`. -/
structure RefreshData where
  token : SignedToken AccessClaims
  refreshToken : SignedToken RefreshClaims
  deriving DecidableEq, Repr

/-- Result of `refresh`. -/
inductive RefreshResult where
  | ok (data : RefreshData)
  | err (code : Nat) (message : String) (internal : Option String)
  deriving DecidableEq, Repr

/-- HTTP status the controller sends for a refresh result (200 on ok). -/
def RefreshResult.code : RefreshResult → Nat
  | .ok _ => 200
  | .err c _ _ => c

/-- Whether a refresh result is the success case. -/
def RefreshResult.isOk : RefreshResult → Bool
  | .ok _ => true
  | .err _ _ _ => false

/-- Result of `logout`. -/
inductive LogoutResult where
  | ok (code : Nat) (message : String)
  | err (code : Nat) (message : String) (internal : Option String)
  deriving DecidableEq, Repr

/-- authService.ts `register`: reject a taken email with 409, hash the
password, create User + Account, return the four selected fields. -/
def register (db : DB) (firstName : String) (lastName : Option String)
    (email password : String) : RegisterResult × DB :=
  match findUserByEmail db email with
  | some _ => (.err 409 "Email already in use" none, db)
  | none =>
      let hashedPassword := bcryptHash password
      match userCreate db firstName lastName email hashedPassword with
      | some (u, db') =>
          (.ok { id := u.id, firstName := u.firstName, lastName := u.lastName,
                 email := u.email }, db')
      | none => (.err 500 "Failed to register user" (some "store error"), db)

/-- Tail of the login success path: `prisma.refreshToken.create` (a store
throw lands in the catch as 500 "Failed to login") followed by the 200
response carrying the prepared data. -/
def persistLoginRow (db : DB) (row : RefreshTokenRow) (data : LoginData) :
    LoginResult × DB :=
  match refreshTokenCreate db row with
  | none => (.err 500 "Failed to login" (some "store error"), db)
  | some db' => (.ok data, db')

/-- authService.ts `login`: look up the user with the Account relation,
compare the password, mint tokens, persist the RefreshToken row, return
the sanitized user and both tokens. -/
def login (env : Env) (db : DB) (email password : String)
    (ip userAgent : Option String) : LoginResult × DB :=
  match findUserByEmail db email with
  | none => (.err 401 "Authentication failed" none, db)
  | some user =>
      match user.account with
      | none => (.err 401 "Authentication failed" none, db)
      | some account =>
          if !bcryptCompare password account.password then
            (.err 401 "Authentication failed: Incorrect password" none, db)
          else
            let issued := IssueTokens env user.id
            let row : RefreshTokenRow :=
              { id := issued.refreshId, userId := user.id,
                ip := some (ip.getD ""), userAgent := some (userAgent.getD ""),
                createdAt := env.now,
                expiresAt := env.now + parseExpiryToMsOpt env.refreshTokenExp,
                revokedAt := none }
            persistLoginRow db row
              { user := { id := user.id, firstName := user.firstName,
                          lastName := user.lastName, email := user.email },
                accessToken := issued.token,
                refreshToken := issued.refreshToken }

/-- authService.ts `refresh`: verify the raw token with the refresh secret
(a throw lands in the catch as 500 "Failed to refresh tokens"), load the
row by `rid`, fold absent/owner-mismatch/revoked into one 401, reject a
past `expiresAt` with 401, then atomically insert the replacement row and
set the old row's `revokedAt` (a transaction throw is the same catch). -/
def refresh (env : Env) (db : DB) (rawRefresh : SignedToken RefreshClaims) :
    RefreshResult × DB :=
  match verifyRefreshToken rawRefresh jwtRefreshSecret env.now with
  | .error e => (.err 500 "Failed to refresh tokens" (some (jwtErrorString e)), db)
  | .ok payload =>
      match findTokenById db payload.rid with
      | none =>
          (.err 401 "Invalid refresh token" (some "Refresh token not found or revoked"), db)
      | some tokenRecord =>
          if tokenRecord.userId != payload.sub || tokenRecord.revokedAt.isSome then
            (.err 401 "Invalid refresh token" (some "Refresh token not found or revoked"), db)
          else if tokenRecord.expiresAt < env.now then
            (.err 401 "Invalid refresh token" (some "Refresh token expired"), db)
          else
            let issued := IssueTokens env payload.sub
            let newRow : RefreshTokenRow :=
              { id := issued.refreshId, userId := payload.sub,
                ip := some (tokenRecord.ip.getD ""),
                userAgent := some (tokenRecord.userAgent.getD ""),
                createdAt := env.now,
                expiresAt := env.now + parseExpiryToMsOpt env.refreshTokenExp,
                revokedAt := none }
            match (refreshTokenCreate db newRow).bind
                (fun db1 => refreshTokenUpdateRevokedAt db1 payload.rid env.now) with
            | none =>
                (.err 500 "Failed to refresh tokens" (some "transaction failed"), db)
            | some db2 =>
                (.ok { token := issued.token, refreshToken := issued.refreshToken }, db2)

/-- authService.ts `logout`: verify the raw token (a throw lands in the
catch as 500 "Failed to logout"), reject a payload whose `rid` is falsy
with 400, set the row's `revokedAt` (an update throw is the same catch). -/
def logout (env : Env) (db : DB) (rawRefresh : SignedToken RefreshClaims) :
    LogoutResult × DB :=
  match verifyRefreshToken rawRefresh jwtRefreshSecret env.now with
  | .error e => (.err 500 "Failed to logout" (some (jwtErrorString e)), db)
  | .ok payload =>
      if payload.rid == "" then
        (.err 400 "Invalid refresh token" (some "JWT verification failed"), db)
      else
        match refreshTokenUpdateRevokedAt db payload.rid env.now with
        | none => (.err 500 "Failed to logout" (some "store error"), db)
        | some db' => (.ok 200 "Logged out successfully", db')

/-- The RefreshToken rows of a user that are live (`revokedAt = null`). -/
def activeTokenRows (db : DB) (uid : Nat) : List RefreshTokenRow :=
  db.tokens.filter (fun r => r.userId == uid && r.revokedAt.isNone)

/-- An incoming HTTP request as the middleware and controllers see it:
the Authorization header, the `req.user` field (typed in the Express
augmentation, read by the transaction controllers) and the `req.payload`
field (the one the middleware writes). -/
structure HttpRequest where
  authorization : Option String
  user : Option AccessClaims
  payload : Option AccessClaims
  deriving DecidableEq, Repr

/-- Outcome of the middleware: an immediate 401 response or `next()` with
the possibly-updated request. -/
inductive MwOutcome where
  | respond (status : Nat) (error : String)
  | next (req : HttpRequest)
  deriving DecidableEq, Repr

/-- Accumulator pass over the characters: collect the maximal nonempty
runs of non-whitespace characters. -/
def splitWsAux : List Char → List Char → List String
  | [], cur => if cur.isEmpty then [] else [String.mk cur.reverse]
  | c :: cs, cur =>
      if c.isWhitespace then
        if cur.isEmpty then splitWsAux cs []
        else String.mk cur.reverse :: splitWsAux cs []
      else splitWsAux cs (c :: cur)

/-- `header.trim().split(/\s+/)`: the nonempty whitespace-separated
pieces of the header (trimming and run-splitting leave no empties). -/
def splitWhitespace (s : String) : List String :=
  splitWsAux s.data []

/-- `s.toLowerCase()`, character by character. -/
def lowerString (s : String) : String :=
  String.mk (s.data.map Char.toLower)

/-- auth.middleware.ts `authenticationHandler`: 401 on a missing header, a
non-two-part or non-bearer header, or a failed `verifyJwt` with the access
secret; on success it writes the decoded claims to `req.payload` and calls
`next()`. It takes no database argument: verification is purely
cryptographic and time-based. `decode` is the JWT wire decoding of the
bearer substring. -/
def authenticationHandler (decode : String → SignedToken AccessClaims)
    (now : Millis) (req : HttpRequest) : MwOutcome :=
  match req.authorization with
  | none => .respond 401 "Unauthorized: Missing Authorization header"
  | some authHeader =>
      let parts := splitWhitespace authHeader
      if parts.length != 2 || lowerString (parts.getD 0 "") != "bearer" then
        .respond 401 "Unauthorized: Invalid Authorization header format"
      else
        match verifyAccessToken (decode (parts.getD 1 "")) jwtAccessSecret now with
        | .error _ => .respond 401 "Unauthorized: Invalid or expired token"
        | .ok p => .next { req with payload := some p }

/-- transactionController.ts `createTransaction` line `const userId =
req.user?.sub;` — the ownership identity the downstream handlers read
(`getTransactionById` reads the same field). -/
def createTransactionUserId (req : HttpRequest) : Option String :=
  req.user.map (fun p => p.sub)

/-! Helper lemmas about the list-based store. -/

theorem mem_any_false {α : Type} {p : α → Bool} {l : List α} {x : α}
    (hx : x ∈ l) (h : l.any p = false) : p x = false := by
  induction l with
  | nil => cases hx
  | cons a t ih =>
      rw [List.any_cons, Bool.or_eq_false_iff] at h
      rcases List.mem_cons.mp hx with rfl | hxt
      · exact h.1
      · exact ih hxt h.2

theorem any_eq_false_of_find?_eq_none {α : Type} {p : α → Bool} {l : List α}
    (h : l.find? p = none) : l.any p = false := by
  induction l with
  | nil => rfl
  | cons a t ih =>
      cases hp : p a with
      | true => simp [List.find?, hp] at h
      | false =>
          simp only [List.find?, hp] at h
          rw [List.any_cons, hp, Bool.false_or]
          exact ih h

theorem filter_eq_nil_of_imp {α : Type} {p q : α → Bool} {l : List α}
    (h : l.any q = false) (himp : ∀ x, p x = true → q x = true) :
    l.filter p = [] := by
  induction l with
  | nil => rfl
  | cons a t ih =>
      rw [List.any_cons, Bool.or_eq_false_iff] at h
      have hpa : p a = false := by
        cases hp : p a
        · rfl
        · exact absurd (himp a hp) (by simp [h.1])
      rw [List.filter_cons, hpa]
      simp only [Bool.false_eq_true, if_false]
      exact ih h.2

theorem find?_some_pred {α : Type} {p : α → Bool} {l : List α} {x : α}
    (h : l.find? p = some x) : p x = true := by
  induction l with
  | nil => simp [List.find?] at h
  | cons a t ih =>
      cases hp : p a with
      | true =>
          simp only [List.find?, hp] at h
          injection h with h'
          subst h'
          exact hp
      | false =>
          simp only [List.find?, hp] at h
          exact ih h

theorem any_eq_true_of_find?_eq_some {α : Type} {p : α → Bool} {l : List α}
    {x : α} (h : l.find? p = some x) : l.any p = true := by
  induction l with
  | nil => simp [List.find?] at h
  | cons a t ih =>
      cases hp : p a with
      | true => simp [List.any_cons, hp]
      | false =>
          simp only [List.find?, hp] at h
          simp [List.any_cons, hp, ih h]

theorem find?_append_of_none {α : Type} {p : α → Bool} {l1 : List α}
    (l2 : List α) (h : l1.find? p = none) :
    (l1 ++ l2).find? p = l2.find? p := by
  induction l1 with
  | nil => rfl
  | cons a t ih =>
      cases hp : p a with
      | true => simp [List.find?, hp] at h
      | false =>
          simp only [List.find?, hp] at h
          simp only [List.cons_append, List.find?, hp]
          exact ih h

theorem revokeMap_id (rid : String) (t : Millis) (r : RefreshTokenRow) :
    (revokeMap rid t r).id = r.id := by
  unfold revokeMap
  split <;> rfl

theorem revokeMap_userId (rid : String) (t : Millis) (r : RefreshTokenRow) :
    (revokeMap rid t r).userId = r.userId := by
  unfold revokeMap
  split <;> rfl

theorem any_id_map_revokeMap (rid : String) (t : Millis) (rid' : String)
    (l : List RefreshTokenRow) :
    (l.map (revokeMap rid t)).any (fun r => r.id == rid') =
      l.any (fun r => r.id == rid') := by
  induction l with
  | nil => rfl
  | cons a tl ih => simp [List.any_cons, revokeMap_id, ih]

theorem active_pred_revokeMap (rid : String) (t : Millis) (uid : Nat)
    (r : RefreshTokenRow)
    (h : ((revokeMap rid t r).userId == uid &&
          (revokeMap rid t r).revokedAt.isNone) = true) :
    (r.userId == uid && r.revokedAt.isNone) = true := by
  unfold revokeMap at h
  split at h
  · simp at h
  · exact h

theorem active_length_map_revokeMap_le (rid : String) (t : Millis) (uid : Nat)
    (l : List RefreshTokenRow) :
    ((l.map (revokeMap rid t)).filter
        (fun r => r.userId == uid && r.revokedAt.isNone)).length ≤
      (l.filter (fun r => r.userId == uid && r.revokedAt.isNone)).length := by
  induction l with
  | nil => simp
  | cons a tl ih =>
      simp only [List.map_cons, List.filter_cons]
      cases ha' : ((revokeMap rid t a).userId == uid &&
          (revokeMap rid t a).revokedAt.isNone) with
      | true =>
          rw [active_pred_revokeMap rid t uid a ha']
          simpa using Nat.succ_le_succ ih
      | false =>
          cases ha : (a.userId == uid && a.revokedAt.isNone) with
          | true =>
              simp only [if_true, List.length_cons, Bool.false_eq_true, if_false]
              exact Nat.le_succ_of_le ih
          | false => simpa using ih

/-- Core consequence of the unique index `RefreshToken_userId_key`: the
rotation transaction inside `refresh` inserts a second row for the owner
of the looked-up (still present, merely revoked) row, so the insert always
violates the index and `refresh` can never reach its success branch. -/
theorem refresh_ok_impossible (env : Env) (db : DB)
    (raw : SignedToken RefreshClaims) (data : RefreshData) (db2 : DB)
    (h : refresh env db raw = (.ok data, db2)) : False := by
  simp only [refresh] at h
  split at h
  · simp at h
  next payload hver =>
    split at h
    · simp at h
    next tokenRecord hfind =>
      split at h
      · simp at h
      next hguard =>
        split at h
        · simp at h
        next hexp =>
          split at h
          · simp at h
          next db3 htr =>
            rcases Option.bind_eq_some.mp htr with ⟨db1, hcreate, _⟩
            simp only [refreshTokenCreate] at hcreate
            split at hcreate
            · exact Option.noConfusion hcreate
            next hcond =>
              rw [Bool.not_eq_true, Bool.or_eq_false_iff] at hcond
              have hmem : tokenRecord ∈ db.tokens :=
                List.mem_of_find?_eq_some hfind
              have hown : tokenRecord.userId = payload.sub := by
                rw [Bool.not_eq_true, Bool.or_eq_false_iff] at hguard
                exact bne_eq_false_iff_eq.mp hguard.1
              have hfalse : (tokenRecord.userId == payload.sub) = false :=
                mem_any_false (p := fun r => r.userId == payload.sub) hmem hcond.2
              rw [hown] at hfalse
              simp at hfalse

/-! Concrete sample data used to exercise the operations. -/

/-- A store with one registered user (id 1, email john@x.com, password
"alpha") and no refresh tokens. -/
def sampleDb : DB :=
  { users := [{ id := 1, firstName := "John", lastName := some "Doe",
                email := "john@x.com",
                account := some { password := bcryptHash "alpha" } }],
    tokens := [], nextUserId := 2 }

/-- Effects of John's login call: 2025-12-01 00:00:00 UTC, fresh row id
"rid-1", both expiry variables unset. -/
def sampleEnv : Env :=
  { now := 1764547200000, newRid := "rid-1",
    accessTokenExp := none, refreshTokenExp := none }

/-- The store after John's successful login: one live RefreshToken row
"rid-1". -/
def sampleDbLoggedIn : DB :=
  (login sampleEnv sampleDb "john@x.com" "alpha" none none).2

/-- A refresh token naming row "rid-1" of user 1, signed with the refresh
secret, whose own exp claim is still in the future. -/
def sampleRefreshToken : SignedToken RefreshClaims :=
  .signed { sub := 1, rid := "rid-1", iat := 1764547200, exp := 1765152000 }
    jwtRefreshSecret

/-- Effects of a later call: 100 seconds after the login, fresh row id
"rid-2". -/
def laterEnv : Env :=
  { now := 1764547300000, newRid := "rid-2",
    accessTokenExp := none, refreshTokenExp := none }

/-- Claim C2 (code_bug evidence). The claim presumes a refresh call using a
valid token can succeed and rotate row R1. In the code as shipped it
cannot: the store's unique index `RefreshToken_userId_key` still holds the
old (merely revoked, never deleted) row of the same user when the rotation
transaction inserts the replacement row, so every refresh call returns the
500 catch-all instead — shown in general (no refresh result is ever the
success case) and at the concrete failing input (a logged-in user's valid,
live, unexpired token). -/
theorem refresh_rotation_never_succeeds :
    (∀ (env : Env) (db : DB) (raw : SignedToken RefreshClaims),
      (refresh env db raw).1.isOk = false) ∧
    (refresh laterEnv sampleDbLoggedIn sampleRefreshToken).1 =
      .err 500 "Failed to refresh tokens" (some "transaction failed") := by
  constructor
  · intro env db raw
    rcases hq : refresh env db raw with ⟨r, db2⟩
    cases r with
    | ok d => exact (refresh_ok_impossible env db raw d db2 hq).elim
    | err c m i => rfl
  · decide

/-- Claim C4 counterexample: at a concrete malformed raw refresh token the
refresh operation does not fail with status 401 as the claim states; it
returns 500 "Failed to refresh tokens" (the codec exception lands in the
generic catch). A wrong-signature token and a token expired by its own exp
claim take the same 500 path. -/
theorem refresh_codec_failure_not_401_counterexample :
    ((refresh sampleEnv sampleDbLoggedIn SignedToken.malformed).1.code == 401) = false ∧
    (refresh sampleEnv sampleDbLoggedIn SignedToken.malformed).1 =
      .err 500 "Failed to refresh tokens" (some "JsonWebTokenError: invalid token") ∧
    (refresh laterEnv sampleDbLoggedIn
        (.signed { sub := 1, rid := "rid-1", iat := 1764547200, exp := 1765152000 }
          "some-other-secret")).1.code = 500 ∧
    (refresh laterEnv sampleDbLoggedIn
        (.signed { sub := 1, rid := "rid-1", iat := 1764547200, exp := 1 }
          jwtRefreshSecret)).1 =
      .err 500 "Failed to refresh tokens" (some "TokenExpiredError: jwt expired") := by
  decide

/-- Claim C4 amended: a refresh call whose raw token is malformed, carries
a bad signature, or is expired by its own exp claim fails — but with
status 500 and message "Failed to refresh tokens" (the `jwt.verify` throw
is handled by the catch-all), not with the 401 InvalidRefreshToken error;
the store is left unchanged. -/
theorem refresh_codec_failure_gives_500 (env : Env) (db : DB)
    (raw : SignedToken RefreshClaims) (e : JwtError)
    (hver : verifyRefreshToken raw jwtRefreshSecret env.now = .error e) :
    refresh env db raw =
      (.err 500 "Failed to refresh tokens" (some (jwtErrorString e)), db) := by
  simp [refresh, hver]

/-- Witness for the amended C4 theorem at the malformed-token input. -/
theorem refresh_codec_failure_gives_500_witness :
    refresh sampleEnv sampleDbLoggedIn SignedToken.malformed =
      (.err 500 "Failed to refresh tokens"
        (some (jwtErrorString JwtError.invalidToken)), sampleDbLoggedIn) :=
  refresh_codec_failure_gives_500 sampleEnv sampleDbLoggedIn
    SignedToken.malformed JwtError.invalidToken (by decide)

/-- Claim C5 counterexample: at a concrete store, the unknown-email login
failure and the wrong-password login failure both carry status 401 but
their messages differ ("Authentication failed" vs "Authentication failed:
Incorrect password"), so the two failure results are not externally
identical as the claim states. -/
theorem login_failures_distinguishable_counterexample :
    (login sampleEnv sampleDb "nobody@x.com" "whatever" none none).1 =
      .err 401 "Authentication failed" none ∧
    (login sampleEnv sampleDb "john@x.com" "wrongpw" none none).1 =
      .err 401 "Authentication failed: Incorrect password" none ∧
    ((login sampleEnv sampleDb "nobody@x.com" "whatever" none none).1.errMessage ==
      (login sampleEnv sampleDb "john@x.com" "wrongpw" none none).1.errMessage) = false := by
  decide

/-- Claim C5 amended: both failure modes return status 401, but the
messages differ — an unregistered email yields "Authentication failed"
while a registered email with a wrong password yields "Authentication
failed: Incorrect password" — so a caller can tell whether an email is
registered from the message. -/
theorem login_failures_same_status_different_messages (env : Env) (db : DB)
    (e1 e2 p1 p2 : String) (ip ua : Option String) (u : UserRow)
    (acct : Account)
    (h1 : findUserByEmail db e1 = none)
    (h2 : findUserByEmail db e2 = some u)
    (hacct : u.account = some acct)
    (hpw : bcryptCompare p2 acct.password = false) :
    (login env db e1 p1 ip ua).1 = .err 401 "Authentication failed" none ∧
    (login env db e2 p2 ip ua).1 =
      .err 401 "Authentication failed: Incorrect password" none := by
  constructor
  · simp [login, h1]
  · simp [login, h2, hacct, hpw]

/-- Witness for the amended C5 theorem at a concrete store. -/
theorem login_failures_messages_witness :
    (login sampleEnv sampleDb "nobody@x.com" "whatever" none none).1 =
      .err 401 "Authentication failed" none ∧
    (login sampleEnv sampleDb "john@x.com" "wrongpw" none none).1 =
      .err 401 "Authentication failed: Incorrect password" none :=
  login_failures_same_status_different_messages sampleEnv sampleDb
    "nobody@x.com" "john@x.com" "whatever" "wrongpw" none none
    { id := 1, firstName := "John", lastName := some "Doe",
      email := "john@x.com", account := some { password := bcryptHash "alpha" } }
    { password := bcryptHash "alpha" }
    (by decide) (by decide) (by decide) (by decide)

/-- Effects for the C9 scenario: issuance at 2025-12-01 00:00:00 UTC with
both expiry environment variables unset (so the "15m" / "7d" defaults
apply). -/
def c9Env : Env :=
  { now := 1764547200000, newRid := "rid-fresh",
    accessTokenExp := none, refreshTokenExp := none }

/-- Claim C9 (code_bug evidence). `IssueTokens` does embed the fresh row
id as rid, but both minted exp claims are 604800 — `parseExpiryToMs`
does not recognise the minutes form "15m" (falling to its 7-day default),
and the millisecond duration divided by 1000 is passed as the absolute
NumericDate `exp`, which jsonwebtoken reads as 1970-01-08. Hence the
access token's expiry is not about 15 minutes after issuance, the refresh
token's expiry is not about 7 days after issuance, and both tokens are
already expired by their own claim at the moment they are minted. -/
theorem issued_token_expiry_claims_wrong :
    (IssueTokens c9Env 7).token =
      .signed { sub := "7", iat := 1764547200, exp := 604800 } jwtAccessSecret ∧
    (IssueTokens c9Env 7).refreshToken =
      .signed { sub := 7, rid := "rid-fresh", iat := 1764547200, exp := 604800 }
        jwtRefreshSecret ∧
    (IssueTokens c9Env 7).refreshId = "rid-fresh" ∧
    (parseExpiryToMs "15m" == 15 * 60 * 1000) = false ∧
    ((604800 : Nat) == 1764547200 + 15 * 60) = false ∧
    ((604800 : Nat) == 1764547200 + 7 * 24 * 60 * 60) = false ∧
    verifyAccessToken (IssueTokens c9Env 7).token jwtAccessSecret c9Env.now =
      .error .tokenExpired ∧
    verifyRefreshToken (IssueTokens c9Env 7).refreshToken jwtRefreshSecret
      c9Env.now = .error .tokenExpired := by
  decide

/-- Access-token claims carried by the valid bearer credential in the C10
scenario (exp one day after `iat`, so the token verifies). -/
def c10Claims : AccessClaims :=
  { sub := "7", iat := 1764547200, exp := 1764633600 }

/-- The JWT wire decoding for the C10 scenario: the string "good-token"
decodes to a token signed with the access secret; anything else is a
malformed blob. -/
def c10Decode : String → SignedToken AccessClaims :=
  fun s => if s == "good-token" then .signed c10Claims jwtAccessSecret
           else .malformed

/-- Claim C10 (code_bug evidence). The middleware does return 401 on a
missing header, a bad format and an invalid token, all without consulting
any store (it takes none); but on success it attaches the decoded claims
to `req.payload`, leaving `req.user` untouched — and `req.user` is the
field the downstream ownership checks read, so `createTransaction`'s
`req.user?.sub` comes back empty even for an authenticated request. -/
theorem middleware_attaches_wrong_field :
    authenticationHandler c10Decode 1764547200000
      { authorization := some "Bearer good-token", user := none, payload := none } =
      .next { authorization := some "Bearer good-token", user := none,
              payload := some c10Claims } ∧
    createTransactionUserId
      { authorization := some "Bearer good-token", user := none,
        payload := some c10Claims } = none ∧
    authenticationHandler c10Decode 1764547200000
      { authorization := none, user := none, payload := none } =
      .respond 401 "Unauthorized: Missing Authorization header" ∧
    authenticationHandler c10Decode 1764547200000
      { authorization := some "Token abc", user := none, payload := none } =
      .respond 401 "Unauthorized: Invalid Authorization header format" ∧
    authenticationHandler c10Decode 1764547200000
      { authorization := some "Bearer bad-token", user := none, payload := none } =
      .respond 401 "Unauthorized: Invalid or expired token" := by
  decide

/-- Claim C1: after any successful login or any successful refresh,
exactly one RefreshToken row owned by that user has revokedAt = null.
Login inserts a fresh live row and the unique index
`RefreshToken_userId_key` admits the insert only when no other row of that
user exists; a successful refresh is constrained the same way by its
transactional insert. -/
theorem single_active_refresh_token_per_user :
    (∀ (env : Env) (db : DB) (email password : String) (ip ua : Option String)
        (data : LoginData) (db' : DB),
      login env db email password ip ua = (.ok data, db') →
      (activeTokenRows db' data.user.id).length = 1) ∧
    (∀ (env : Env) (db : DB) (raw : SignedToken RefreshClaims)
        (data : RefreshData) (db' : DB) (c : RefreshClaims) (s : String),
      refresh env db raw = (.ok data, db') →
      data.refreshToken = .signed c s →
      (activeTokenRows db' c.sub).length = 1) := by
  constructor
  · intro env db email password ip ua data db' h
    simp only [login] at h
    split at h
    · simp at h
    next user huser =>
      split at h
      · simp at h
      next account hacct =>
        split at h
        · simp at h
        next hpw =>
          simp only [persistLoginRow] at h
          split at h
          · simp at h
          next db2 hcreate =>
            rw [Prod.mk.injEq] at h
            obtain ⟨hres, hdb⟩ := h
            injection hres with hdata
            subst hdb
            subst hdata
            simp only [refreshTokenCreate] at hcreate
            split at hcreate
            · exact Option.noConfusion hcreate
            next hcond =>
              rw [Bool.not_eq_true, Bool.or_eq_false_iff] at hcond
              injection hcreate with hdb2
              subst hdb2
              simp only [activeTokenRows, List.filter_append]
              rw [filter_eq_nil_of_imp hcond.2
                (fun x hx => (Bool.and_eq_true _ _ |>.mp hx).1)]
              simp
  · intro env db raw data db' c s h _
    exact (refresh_ok_impossible env db raw data db' h).elim

/-- Witness for the C1 theorem: John's concrete login succeeds and leaves
exactly one live row. -/
theorem single_active_refresh_token_witness :
    (activeTokenRows sampleDbLoggedIn 1).length = 1 :=
  single_active_refresh_token_per_user.1 sampleEnv sampleDb "john@x.com"
    "alpha" none none
    { user := { id := 1, firstName := "John", lastName := some "Doe",
                email := "john@x.com" },
      accessToken := .signed ⟨"1", 1764547200, 604800⟩ jwtAccessSecret,
      refreshToken := .signed ⟨1, "rid-1", 1764547200, 604800⟩ jwtRefreshSecret }
    sampleDbLoggedIn (by decide)

/-- Claim C3: when the signed refresh token verifies and names an
existing, owner-matching, non-revoked row whose database expiresAt is in
the past, the refresh fails with status 401 ("Invalid refresh token",
internally the expired case) and leaves the store unchanged — the
database expiry is checked on its own, after signature verification,
so it is authoritative. -/
theorem refresh_db_expiry_authoritative (env : Env) (db : DB)
    (raw : SignedToken RefreshClaims) (c : RefreshClaims)
    (row : RefreshTokenRow)
    (hver : verifyRefreshToken raw jwtRefreshSecret env.now = .ok c)
    (hfind : findTokenById db c.rid = some row)
    (howner : row.userId = c.sub)
    (hrev : row.revokedAt = none)
    (hexp : row.expiresAt < env.now) :
    refresh env db raw =
      (.err 401 "Invalid refresh token" (some "Refresh token expired"), db) := by
  simp [refresh, hver, hfind, howner, hrev, hexp]

/-- Witness for the C3 theorem: a store holding an expired live row
"rid-9" for user 1, refreshed with a token whose own exp claim is still in
the future. -/
theorem refresh_db_expiry_witness :
    refresh laterEnv
      { users := sampleDb.users,
        tokens := [{ id := "rid-9", userId := 1, expiresAt := 1764547260000,
                     createdAt := 1763000000000, revokedAt := none,
                     ip := some "", userAgent := some "" }],
        nextUserId := 2 }
      (.signed ⟨1, "rid-9", 1763000000, 1765152000⟩ jwtRefreshSecret) =
      (.err 401 "Invalid refresh token" (some "Refresh token expired"),
        { users := sampleDb.users,
          tokens := [{ id := "rid-9", userId := 1, expiresAt := 1764547260000,
                       createdAt := 1763000000000, revokedAt := none,
                       ip := some "", userAgent := some "" }],
          nextUserId := 2 }) :=
  refresh_db_expiry_authoritative laterEnv _ _ ⟨1, "rid-9", 1763000000, 1765152000⟩
    { id := "rid-9", userId := 1, expiresAt := 1764547260000,
      createdAt := 1763000000000, revokedAt := none,
      ip := some "", userAgent := some "" }
    (by decide) (by decide) (by decide) (by decide) (by decide)

/-- Claim C6: registering a fresh email succeeds with 201; registering the
same email again fails with the 409 EmailInUse error, and the store holds
exactly one User row with that email afterwards. -/
theorem register_twice_email_unique (db : DB) (fn1 fn2 : String)
    (ln1 ln2 : Option String) (e p1 p2 : String)
    (h : findUserByEmail db e = none) :
    (register db fn1 ln1 e p1).1.code = 201 ∧
    (register (register db fn1 ln1 e p1).2 fn2 ln2 e p2).1 =
      .err 409 "Email already in use" none ∧
    ((register (register db fn1 ln1 e p1).2 fn2 ln2 e p2).2.users.filter
      (fun u => u.email == e)).length = 1 := by
  have hany : db.users.any (fun u => u.email == e) = false :=
    any_eq_false_of_find?_eq_none h
  have hreg1 : register db fn1 ln1 e p1 =
      (.ok { id := db.nextUserId, firstName := fn1, lastName := ln1, email := e },
       { db with
          users := db.users ++
            [{ id := db.nextUserId, firstName := fn1, lastName := ln1,
               email := e, account := some { password := bcryptHash p1 } }],
          nextUserId := db.nextUserId + 1 }) := by
    simp [register, h, userCreate, hany]
  have hfind2 : findUserByEmail
      { db with
          users := db.users ++
            [{ id := db.nextUserId, firstName := fn1, lastName := ln1,
               email := e, account := some { password := bcryptHash p1 } }],
          nextUserId := db.nextUserId + 1 } e =
      some { id := db.nextUserId, firstName := fn1, lastName := ln1,
             email := e, account := some { password := bcryptHash p1 } } := by
    have h' : db.users.find? (fun u => u.email == e) = none := h
    simp only [findUserByEmail]
    rw [find?_append_of_none _ h']
    simp [List.find?]
  refine ⟨by rw [hreg1]; rfl, ?_, ?_⟩
  · simp only [hreg1]
    simp only [register]
    rw [hfind2]
  · simp only [hreg1]
    simp only [register]
    rw [hfind2]
    simp only [List.filter_append]
    rw [filter_eq_nil_of_imp hany (fun x hx => hx)]
    simp

/-- Witness for the C6 theorem: registering jane@x.com twice against the
sample store. -/
theorem register_twice_email_unique_witness :
    (register sampleDb "Jane" none "jane@x.com" "pw1").1.code = 201 ∧
    (register (register sampleDb "Jane" none "jane@x.com" "pw1").2
      "Janet" none "jane@x.com" "pw2").1 = .err 409 "Email already in use" none ∧
    ((register (register sampleDb "Jane" none "jane@x.com" "pw1").2
      "Janet" none "jane@x.com" "pw2").2.users.filter
        (fun u => u.email == "jane@x.com")).length = 1 :=
  register_twice_email_unique sampleDb "Jane" "Janet" none none "jane@x.com"
    "pw1" "pw2" (by decide)

/-- Claim C7: for a refresh token that verifies and references a stored
row id, logout succeeds, a second logout with the same token succeeds
again (revoking the already-revoked row is a no-op success), no row is
created by either call, and the user's set of live rows never grows. -/
theorem logout_idempotent (env1 env2 : Env) (db : DB)
    (raw : SignedToken RefreshClaims) (c : RefreshClaims)
    (row : RefreshTokenRow)
    (hv1 : verifyRefreshToken raw jwtRefreshSecret env1.now = .ok c)
    (hv2 : verifyRefreshToken raw jwtRefreshSecret env2.now = .ok c)
    (hrid : (c.rid == "") = false)
    (hfind : findTokenById db c.rid = some row) :
    (logout env1 db raw).1 = .ok 200 "Logged out successfully" ∧
    (logout env2 (logout env1 db raw).2 raw).1 =
      .ok 200 "Logged out successfully" ∧
    (logout env2 (logout env1 db raw).2 raw).2.tokens.length =
      db.tokens.length ∧
    (activeTokenRows (logout env2 (logout env1 db raw).2 raw).2
        row.userId).length ≤
      (activeTokenRows db row.userId).length := by
  have hfind' : db.tokens.find? (fun r => r.id == c.rid) = some row := hfind
  have hany : db.tokens.any (fun r => r.id == c.rid) = true :=
    any_eq_true_of_find?_eq_some hfind'
  have h1 : logout env1 db raw =
      (.ok 200 "Logged out successfully",
       { db with tokens := db.tokens.map (revokeMap c.rid env1.now) }) := by
    simp [logout, hv1, hrid, refreshTokenUpdateRevokedAt, hany]
  have hany2 : ((db.tokens.map (revokeMap c.rid env1.now)).any
      (fun r => r.id == c.rid)) = true := by
    rw [any_id_map_revokeMap]
    exact hany
  have h2 : logout env2
      { db with tokens := db.tokens.map (revokeMap c.rid env1.now) } raw =
      (.ok 200 "Logged out successfully",
       { db with tokens :=
          (db.tokens.map (revokeMap c.rid env1.now)).map (revokeMap c.rid env2.now) }) := by
    simp [logout, hv2, hrid, refreshTokenUpdateRevokedAt, hany2]
  refine ⟨by rw [h1], ?_, ?_, ?_⟩
  · rw [h1, h2]
  · rw [h1, h2]
    simp
  · rw [h1, h2]
    simp only [activeTokenRows]
    exact Nat.le_trans
      (active_length_map_revokeMap_le c.rid env2.now row.userId _)
      (active_length_map_revokeMap_le c.rid env1.now row.userId _)

/-- Witness for the C7 theorem: logging out twice with John's live token
after his login. -/
theorem logout_idempotent_witness :
    (logout laterEnv sampleDbLoggedIn sampleRefreshToken).1 =
      .ok 200 "Logged out successfully" ∧
    (logout laterEnv (logout laterEnv sampleDbLoggedIn sampleRefreshToken).2
      sampleRefreshToken).1 = .ok 200 "Logged out successfully" ∧
    (logout laterEnv (logout laterEnv sampleDbLoggedIn sampleRefreshToken).2
      sampleRefreshToken).2.tokens.length = sampleDbLoggedIn.tokens.length ∧
    (activeTokenRows (logout laterEnv
        (logout laterEnv sampleDbLoggedIn sampleRefreshToken).2
        sampleRefreshToken).2 1).length ≤
      (activeTokenRows sampleDbLoggedIn 1).length :=
  logout_idempotent laterEnv laterEnv sampleDbLoggedIn sampleRefreshToken
    ⟨1, "rid-1", 1764547200, 1765152000⟩
    { id := "rid-1", userId := 1, expiresAt := 1765152000000,
      createdAt := 1764547200000, revokedAt := none,
      ip := some "", userAgent := some "" }
    (by decide) (by decide) (by decide) (by decide)

theorem persistLoginRow_fst_congr (db1 db2 : DB) (row : RefreshTokenRow)
    (data : LoginData) (h : db1.tokens = db2.tokens) :
    (persistLoginRow db1 row data).1 = (persistLoginRow db2 row data).1 := by
  unfold persistLoginRow refreshTokenCreate
  rw [h]
  by_cases hc : (db2.tokens.any (fun r => r.id == row.id) ||
      db2.tokens.any (fun r => r.userId == row.userId)) = true
  · simp [hc]
  · simp [hc]

/-- Claim C8: neither the registration response nor the login response
carries the plaintext password or its hash. Formally: the register result
is identical for any two passwords (its data is only the id/firstName/
lastName/email selection); the login result is identical across two
stores that differ only in the stored password hash, each called with its
matching password; and the login success data is exactly the sanitized
four-field projection of the stored user. -/
theorem responses_never_contain_password :
    (∀ (db : DB) (fn : String) (ln : Option String) (e p1 p2 : String),
      (register db fn ln e p1).1 = (register db fn ln e p2).1) ∧
    (∀ (env : Env) (db1 db2 : DB) (e p1 p2 : String) (ip ua : Option String)
        (u1 u2 : UserRow) (a1 a2 : Account),
      findUserByEmail db1 e = some u1 →
      findUserByEmail db2 e = some u2 →
      u1.account = some a1 → u2.account = some a2 →
      a1.password = bcryptHash p1 → a2.password = bcryptHash p2 →
      u1.id = u2.id → u1.firstName = u2.firstName → u1.lastName = u2.lastName →
      db1.tokens = db2.tokens →
      (login env db1 e p1 ip ua).1 = (login env db2 e p2 ip ua).1) ∧
    (∀ (env : Env) (db : DB) (e p : String) (ip ua : Option String)
        (u : UserRow) (data : LoginData) (db' : DB),
      findUserByEmail db e = some u →
      login env db e p ip ua = (.ok data, db') →
      data.user = { id := u.id, firstName := u.firstName,
                    lastName := u.lastName, email := u.email }) := by
  refine ⟨?_, ?_, ?_⟩
  · intro db fn ln e p1 p2
    cases hf : findUserByEmail db e with
    | some u => simp [register, hf]
    | none =>
        by_cases ha : (db.users.any (fun u => u.email == e)) = true
        · simp [register, hf, userCreate, ha]
        · simp [register, hf, userCreate, ha]
  · intro env db1 db2 e p1 p2 ip ua u1 u2 a1 a2 hf1 hf2 hac1 hac2 hp1 hp2
      hid hfn hln htok
    have hf1' : db1.users.find? (fun u => u.email == e) = some u1 := hf1
    have hf2' : db2.users.find? (fun u => u.email == e) = some u2 := hf2
    have he1 : u1.email = e := by
      have := find?_some_pred hf1'
      exact eq_of_beq this
    have he2 : u2.email = e := by
      have := find?_some_pred hf2'
      exact eq_of_beq this
    have hcmp1 : bcryptCompare p1 a1.password = true := by
      simp [bcryptCompare, hp1]
    have hcmp2 : bcryptCompare p2 a2.password = true := by
      simp [bcryptCompare, hp2]
    simp only [login, hf1, hf2, hac1, hac2, hcmp1, hcmp2, Bool.not_true,
      Bool.false_eq_true, if_false]
    rw [hid, hfn, hln, he1, he2]
    exact persistLoginRow_fst_congr db1 db2 _ _ htok
  · intro env db e p ip ua u data db' hf hl
    simp only [login] at hl
    split at hl
    next hnone => rw [hf] at hnone; exact Option.noConfusion hnone
    next user huser =>
      rw [hf] at huser
      injection huser with huser'
      subst huser'
      split at hl
      · simp at hl
      next account hacct =>
        split at hl
        · simp at hl
        next hpw =>
          simp only [persistLoginRow] at hl
          split at hl
          · simp at hl
          next db2 hcreate =>
            rw [Prod.mk.injEq] at hl
            obtain ⟨hres, _⟩ := hl
            injection hres with hdata
            subst hdata
            rfl

/-- The sample store with John's account holding the hash of "beta"
instead of "alpha". -/
def sampleDbBeta : DB :=
  { users := [{ id := 1, firstName := "John", lastName := some "Doe",
                email := "john@x.com",
                account := some { password := bcryptHash "beta" } }],
    tokens := [], nextUserId := 2 }

/-- Witness for the C8 theorem: John's login response is the same whether
his stored credential is the hash of "alpha" or of "beta". -/
theorem responses_never_contain_password_witness :
    (login sampleEnv sampleDb "john@x.com" "alpha" none none).1 =
      (login sampleEnv sampleDbBeta "john@x.com" "beta" none none).1 :=
  responses_never_contain_password.2.1 sampleEnv sampleDb sampleDbBeta
    "john@x.com" "alpha" "beta" none none
    { id := 1, firstName := "John", lastName := some "Doe",
      email := "john@x.com", account := some { password := bcryptHash "alpha" } }
    { id := 1, firstName := "John", lastName := some "Doe",
      email := "john@x.com", account := some { password := bcryptHash "beta" } }
    { password := bcryptHash "alpha" } { password := bcryptHash "beta" }
    (by decide) (by decide) (by decide) (by decide) (by decide) (by decide)
    rfl rfl rfl rfl

end ExpenseIt
